import Mathlib

/-!
A shallow embedding of the title-bot group title automation engine
(src/group.rs, src/lib.rs, src/bot.rs) together with proofs about the
specification claims.  External collaborators (the chrono calendar crate,
the chrono-tz timezone database, the Telegram client and the key-value
backend) are modelled by explicit data passed to the embedded functions.
-/

namespace TitleBot

/-! ## Calendar arithmetic (models the calendar computations of the external
chrono crate, used by TemplateContext::generate in src/group.rs) -/

/-- Proleptic-Gregorian civil date from days since 1970-01-01 (floor-division
form of the standard civil-from-days algorithm). -/
def civilFromDays (z0 : Int) : Int × Nat × Nat :=
  let z : Int := z0 + 719468
  let era : Int := z.fdiv 146097
  let doe : Int := z - era * 146097
  let yoe : Int := (doe - doe.fdiv 1460 + doe.fdiv 36524 - doe.fdiv 146096).fdiv 365
  let y : Int := yoe + era * 400
  let doy : Int := doe - (365 * yoe + yoe.fdiv 4 - yoe.fdiv 100)
  let mp : Int := (5 * doy + 2).fdiv 153
  let d : Int := doy - (153 * mp + 2).fdiv 5 + 1
  let m : Int := if mp < 10 then mp + 3 else mp - 9
  (if m ≤ 2 then y + 1 else y, m.toNat, d.toNat)

def isLeap (y : Int) : Bool := (y % 4 == 0 && y % 100 != 0) || (y % 400 == 0)

/-- Days in the months before month m (1-based) of a year with the given
leap flag. -/
def daysInPriorMonths (leap : Bool) (m : Nat) : Nat :=
  let base := [0, 31, 59, 90, 120, 151, 181, 212, 243, 273, 304, 334].getD (m - 1) 0
  if leap ∧ m > 2 then base + 1 else base

def monthAbbrList : List String :=
  ["Jan", "Feb", "Mar", "Apr", "May", "Jun", "Jul", "Aug", "Sep", "Oct", "Nov", "Dec"]

def monthNameList : List String :=
  ["January", "February", "March", "April", "May", "June", "July", "August",
   "September", "October", "November", "December"]

def wdAbbrList : List String := ["Sun", "Mon", "Tue", "Wed", "Thu", "Fri", "Sat"]

def wdNameList : List String :=
  ["Sunday", "Monday", "Tuesday", "Wednesday", "Thursday", "Friday", "Saturday"]

def pad2 (n : Nat) : String := if n < 10 then "0" ++ toString n else toString n

def pad3 (n : Nat) : String :=
  if n < 10 then "00" ++ toString n else if n < 100 then "0" ++ toString n else toString n

def pad4 (n : Nat) : String :=
  if n < 10 then "000" ++ toString n
  else if n < 100 then "00" ++ toString n
  else if n < 1000 then "0" ++ toString n
  else toString n

def pad4i (y : Int) : String := if y < 0 then "-" ++ pad4 y.natAbs else pad4 y.toNat

def spad2 (n : Nat) : String := if n < 10 then " " ++ toString n else toString n

/-! ## Timezones (models the external chrono-tz crate: parse accepts exact
IANA names; a finite table of zones with fixed standard offsets suffices for
this development) -/

structure Tz where
  name : String
  offsetSeconds : Int
deriving DecidableEq, Repr

def tzUTC : Tz := ⟨"UTC", 0⟩

/-- Modelled from the external chrono-tz crate: FromStr for Tz accepts exact
IANA zone names.  Finite table; unknown names fail to parse. -/
def parseTz (s : String) : Option Tz :=
  if s = "UTC" then some tzUTC
  else if s = "Asia/Shanghai" then some ⟨"Asia/Shanghai", 28800⟩
  else if s = "Europe/London" then some ⟨"Europe/London", 0⟩
  else if s = "America/New_York" then some ⟨"America/New_York", -18000⟩
  else if s = "Asia/Tokyo" then some ⟨"Asia/Tokyo", 32400⟩
  else none

/-- A DateTime with a timezone, as produced by Group::get_time: an instant
(seconds since the Unix epoch) paired with the zone whose offset is applied
when reading civil fields. -/
structure LocalDT where
  utcSeconds : Int
  tz : Tz
deriving DecidableEq, Repr

def LocalDT.localSeconds (t : LocalDT) : Int := t.utcSeconds + t.tz.offsetSeconds

def LocalDT.localDays (t : LocalDT) : Int := (LocalDT.localSeconds t).fdiv 86400

structure CivilDT where
  year : Int
  month : Nat
  day : Nat
  hour : Nat
  minute : Nat
  second : Nat
deriving DecidableEq, Repr

def LocalDT.civil (t : LocalDT) : CivilDT :=
  let days := LocalDT.localDays t
  let sod : Nat := ((LocalDT.localSeconds t).emod 86400).toNat
  let ymd := civilFromDays days
  ⟨ymd.1, ymd.2.1, ymd.2.2, sod / 3600, sod % 3600 / 60, sod % 60⟩

/-- Weekday with Sunday = 0 (the %w specifier). -/
def LocalDT.wdSun (t : LocalDT) : Nat := ((LocalDT.localDays t + 4).emod 7).toNat

/-- ISO weekday with Monday = 1 (the %u specifier). -/
def LocalDT.isoWd (t : LocalDT) : Nat := ((LocalDT.localDays t + 3).emod 7).toNat + 1

def CivilDT.yday (c : CivilDT) : Nat := daysInPriorMonths (isLeap c.year) c.month + c.day

def isoP (y : Int) : Int := (y + y.fdiv 4 - y.fdiv 100 + y.fdiv 400).emod 7

def weeksInIsoYear (y : Int) : Nat :=
  if isoP y = 4 ∨ isoP (y - 1) = 3 then 53 else 52

/-- ISO 8601 week-based year and week number (the %G and %V specifiers). -/
def isoYearWeek (y : Int) (yday isoWd : Nat) : Int × Nat :=
  let w : Int := ((yday : Int) - (isoWd : Int) + 10).fdiv 7
  if w < 1 then (y - 1, weeksInIsoYear (y - 1))
  else if w > (weeksInIsoYear y : Int) then (y + 1, 1)
  else (y, w.toNat)

/-! ## Template context (TemplateContext::generate, src/group.rs lines 83-94):
a map from format-specifier keys to the formatted value of the datetime, one
entry per specifier listed in the source, plus the custom yeshu entry. -/

def TemplateContext.generate (t : LocalDT) : List (String × String) :=
  let c := LocalDT.civil t
  let wdS := LocalDT.wdSun t
  let wdI := LocalDT.isoWd t
  let yd := CivilDT.yday c
  let gv := isoYearWeek c.year yd wdI
  let h12 : Nat := if c.hour % 12 = 0 then 12 else c.hour % 12
  let off := t.tz.offsetSeconds
  let offSign := if off < 0 then "-" else "+"
  let offH := pad2 (off.natAbs / 3600)
  let offM := pad2 (off.natAbs % 3600 / 60)
  let sY := pad4i c.year
  let sm := pad2 c.month
  let sd := pad2 c.day
  let sb := monthAbbrList.getD (c.month - 1) ""
  let sB := monthNameList.getD (c.month - 1) ""
  let sa := wdAbbrList.getD wdS ""
  let sA := wdNameList.getD wdS ""
  let sH := pad2 c.hour
  let sM := pad2 c.minute
  let sS := pad2 c.second
  let sT := sH ++ ":" ++ sM ++ ":" ++ sS
  let sD := sm ++ "/" ++ sd ++ "/" ++ pad2 (c.year.emod 100).toNat
  let sF := sY ++ "-" ++ sm ++ "-" ++ sd
  let sz := offSign ++ offH ++ offM
  let szc := offSign ++ offH ++ ":" ++ offM
  let sp := if c.hour < 12 then "AM" else "PM"
  [("Y", sY), ("C", pad2 (c.year.fdiv 100).toNat), ("y", pad2 (c.year.emod 100).toNat),
   ("m", sm), ("b", sb), ("B", sB), ("h", sb), ("d", sd), ("e", spad2 c.day),
   ("a", sa), ("A", sA), ("w", toString wdS), ("u", toString wdI),
   ("U", pad2 ((yd - 1 + 7 - wdS) / 7)), ("W", pad2 ((yd - 1 + 7 - (wdS + 6) % 7) / 7)),
   ("G", pad4i gv.1), ("g", pad2 (gv.1.emod 100).toNat), ("V", pad2 gv.2), ("j", pad3 yd),
   ("D", sD), ("x", sD), ("F", sF), ("v", spad2 c.day ++ "-" ++ sb ++ "-" ++ sY),
   ("H", sH), ("k", spad2 c.hour), ("I", pad2 h12), ("l", spad2 h12),
   ("P", if c.hour < 12 then "am" else "pm"), ("p", sp),
   ("M", sM), ("S", sS), ("f", "000000000"), ("R", sH ++ ":" ++ sM), ("T", sT), ("X", sT),
   ("r", pad2 h12 ++ ":" ++ sM ++ ":" ++ sS ++ " " ++ sp),
   ("Z", t.tz.name), ("z", sz), (":z", szc),
   ("c", sa ++ " " ++ sb ++ " " ++ spad2 c.day ++ " " ++ sT ++ " " ++ sY),
   ("+", sF ++ "T" ++ sT ++ szc), ("s", toString t.utcSeconds),
   ("yeshu", toString (c.year - 1988))]

/-! ## Template rendering (models the external new_string_template crate with
its default placeholder pattern: a brace-enclosed, non-empty key containing
no brace; Template::render errors on a placeholder whose key is absent from
the context, and leaves non-placeholder text verbatim) -/

def lbraceChar : Char := '\x7b'

def rbraceChar : Char := '\x7d'

def lookupCtx (ctx : List (String × String)) (k : String) : Option String :=
  List.lookup k ctx

/-- One pass over the template characters.  The second argument holds the
accumulated key characters (reversed) while inside a candidate placeholder,
and is none outside of one. -/
def renderLoop (ctx : List (String × String)) : List Char → Option (List Char) →
    Except String (List Char)
  | [], none => .ok []
  | [], some acc => .ok (lbraceChar :: acc.reverse)
  | ch :: rest, none =>
    if ch = lbraceChar then renderLoop ctx rest (some [])
    else (renderLoop ctx rest none).map (fun l => ch :: l)
  | ch :: rest, some acc =>
    if ch = rbraceChar then
      if acc.isEmpty then
        (renderLoop ctx rest none).map (fun l => lbraceChar :: rbraceChar :: l)
      else
        match lookupCtx ctx ⟨acc.reverse⟩ with
        | some v => (renderLoop ctx rest none).map (fun l => v.data ++ l)
        | none => .error ("unresolved template placeholder: " ++ String.mk acc.reverse)
    else if ch = lbraceChar then
      (renderLoop ctx rest (some [])).map (fun l => lbraceChar :: acc.reverse ++ l)
    else renderLoop ctx rest (some (ch :: acc))

def renderTemplate (tmpl : String) (ctx : List (String × String)) : Except String String :=
  (renderLoop ctx tmpl.data none).map (fun l => String.mk l)

/-! ## The Group record and its methods (src/group.rs) -/

structure Group where
  enable : Bool
  id : Int
  title_segment : List String
  delimiter : String
  last_title : String
  timezone : String
  require_admin : Bool
deriving DecidableEq, Repr

inductive ChatType
  | privateChat
  | groupChat (title : String)
  | supergroup (title : String)
  | channel (title : String)
deriving DecidableEq, Repr

def get_group_title : ChatType → Option String
  | .groupChat title => some title
  | .supergroup title => some title
  | .channel title => some title
  | .privateChat => none

/-- Group::new (src/group.rs lines 103-115).  The source unwraps the title;
call sites only reach it for chats with a title, so the default is inert. -/
def Group.new (chat_id : Int) (chat_type : ChatType) : Group :=
  let title_str := (get_group_title chat_type).getD ""
  { enable := false
    id := chat_id
    title_segment := [title_str]
    delimiter := " | "
    last_title := title_str
    timezone := "UTC"
    require_admin := true }

def Group.push_title_template (g : Group) (new_segment : String) : Group :=
  { g with title_segment := g.title_segment ++ [new_segment] }

def Group.push_front_title_template (g : Group) (new_segment : String) : Group :=
  { g with title_segment := new_segment :: g.title_segment }

def Group.pop_title_template (g : Group) : Group :=
  if g.title_segment.length > 1 then { g with title_segment := g.title_segment.dropLast }
  else g

def Group.pop_front_title_template (g : Group) : Group :=
  if g.title_segment.length > 1 then { g with title_segment := g.title_segment.drop 1 }
  else g

/-- Group::get_time (src/group.rs lines 138-141): parse the stored timezone,
falling back to UTC, and attach its offset to the naive instant. -/
def Group.get_time (g : Group) (naiveSeconds : Int) : LocalDT :=
  ⟨naiveSeconds, (parseTz g.timezone).getD tzUTC⟩

def Group.join_title_template (g : Group) : String :=
  String.intercalate (" " ++ g.delimiter ++ " ") g.title_segment

def Group.clear_title_template (g : Group) : Group := { g with title_segment := [] }

def Group.get_new_title (g : Group) (ctx : List (String × String)) : Except String String :=
  renderTemplate (Group.join_title_template g) ctx

/-! ## The external Telegram call and the apply cycle -/

/-- TelegramResult of setChatTitle as parsed from the response body. -/
structure TelegramResultBool where
  ok : Bool
  description : Option String
  error_code : Option Int
  result : Option Bool
deriving DecidableEq, Repr

/-- SET_CHAT_TITLE_FAILED (src/group.rs lines 15-21): fallback used when the
response body fails to parse. -/
def setChatTitleFailed : TelegramResultBool :=
  { ok := false, description := none, error_code := some 400, result := none }

inductive ChatMemberStatus
  | creator
  | administrator
  | member
  | restricted
  | left
  | kicked
deriving DecidableEq, Repr, BEq

/-- The external world a handler and the loop interact with: the membership
query (Bot::is_admin) and the setChatTitle transport.  An error value is a
transport failure; an ok none is a response whose body fails to parse. -/
structure BotEnv where
  memberStatus : Int → Int → Except String ChatMemberStatus
  setTitle : Int → String → Except String (Option TelegramResultBool)

/-- Group::update_title (src/group.rs lines 165-185): transport errors
propagate; a received response is parsed, an unparsable body counts as the
failed result, and the ok flag is returned. -/
def Group.update_title (env : BotEnv) (g : Group) (title : String) :
    Except String Bool :=
  match env.setTitle g.id title with
  | .error e => .error e
  | .ok parsed => .ok (parsed.getD setChatTitleFailed).ok

/-- Rendering pipeline of Group::apply_template lines 192-198: naive time from
the date, local time, context, render. -/
def Group.renderAt (g : Group) (dateMillis : Nat) : Except String String :=
  Group.get_new_title g
    (TemplateContext.generate (Group.get_time g ((dateMillis / 1000 : Nat) : Int)))

deriving instance DecidableEq for Except

structure ApplyOut where
  group : Group
  calls : List (Int × String)
  result : Except String Bool
deriving DecidableEq, Repr

/-- Group::apply_template (src/group.rs lines 187-207).  The calls field
records every invocation of the external setChatTitle capability.  Note that
the source discards the boolean returned by update_title (the question-mark
operator only propagates transport errors), so a non-success response still
reaches the last_title assignment. -/
def Group.apply_template (env : BotEnv) (g : Group) (dateMillis : Nat) : ApplyOut :=
  match Group.renderAt g dateMillis with
  | .error e => ⟨g, [], .error e⟩
  | .ok new_title =>
    if ¬(1 ≤ new_title.utf8ByteSize ∧ new_title.utf8ByteSize ≤ 255) then
      ⟨g, [], .error "Invalid title length"⟩
    else
      match Group.update_title env g new_title with
      | .error e => ⟨g, [(g.id, new_title)], .error e⟩
      | .ok _flag => ⟨{ g with last_title := new_title }, [(g.id, new_title)], .ok true⟩

/-! ## The persistence store (DataStore, src/group.rs lines 210-276).  The
backend key-value map is modelled as an association list from raw chat id to
the stored Group (bincode serialization is deterministic and injective, so
byte-for-byte equality of stored records is equality of Groups). -/

abbrev Store := List (Int × Group)

def storePut : Store → Int → Group → Store
  | [], id, g => [(id, g)]
  | (k, v) :: rest, id, g =>
    if k == id then (id, g) :: rest else (k, v) :: storePut rest id g

/-- DataStore::load_group: lookup by raw chat id; a missing key is the load
failure case. -/
def storeGet (store : Store) (id : Int) : Option Group := List.lookup id store

/-- DataStore::save_group: put under the key derived from the group id. -/
def save_group (store : Store) (g : Group) : Store := storePut store g.id g

/-- DataStore::load_group_or_create (src/group.rs lines 259-268). -/
def load_group_or_create (store : Store) (id : Int) (chat_type : ChatType) :
    Group × Store :=
  match storeGet store id with
  | some g => (g, store)
  | none =>
    let new_group := Group.new id chat_type
    (new_group, save_group store new_group)

/-! ## Paginated key listing (DataStore::get_group_keys, src/group.rs lines
215-247).  The backend is modelled by the successive ListResult values it
returns: the first call yields the first element, each follow-up call with a
cursor consumes the next one. -/

structure KvKey where
  name : String
deriving DecidableEq, Repr

structure KvListResult where
  keys : List KvKey
  cursor : Option String
  list_complete : Bool
deriving DecidableEq, Repr

/-- The per-key transformation of the source: k.name[6..], dropping the
six-byte "group-" namespace. -/
def stripKeyHead (k : KvKey) : String := k.name.drop 6

/-- The while loop of get_group_keys: keep following the cursor as long as
the listing is not complete and a cursor is present; a backend with no
further page is a transport failure of the next list call. -/
def collectKeys (acc : List String) (cursor : Option String) (complete : Bool) :
    List KvListResult → Except String (List String)
  | [] =>
    if ¬complete ∧ cursor.isSome then .error "kv list request failed"
    else .ok acc
  | p :: rest =>
    if ¬complete ∧ cursor.isSome then
      collectKeys (acc ++ p.keys.map stripKeyHead) p.cursor p.list_complete rest
    else .ok acc

def get_group_keys (firstPage : KvListResult) (morePages : List KvListResult) :
    Except String (List String) :=
  collectKeys (firstPage.keys.map stripKeyHead) firstPage.cursor
    firstPage.list_complete morePages

/-! ## Messages, permission gate and mutation handlers (src/lib.rs) -/

/-- The parts of the inbound Telegram message the handlers read: the chat id,
the chat kind, the text, and the sending user id (m.from). -/
structure Message where
  chatId : Int
  chatKind : ChatType
  text : Option String
  fromUser : Option Int
deriving DecidableEq, Repr

inductive Reply
  | empty
  | message (text : String)
deriving DecidableEq, Repr

abbrev HandlerOut := Reply × Store

/-- Rust str::split_once at the first occurrence of the character. -/
def splitOnceAux (c : Char) : List Char → Option (List Char × List Char)
  | [] => none
  | x :: xs =>
    if x = c then some ([], xs)
    else (splitOnceAux c xs).map (fun p => (x :: p.1, p.2))

def splitOnce (s : String) (c : Char) : Option (String × String) :=
  (splitOnceAux c s.data).map (fun p => (String.mk p.1, String.mk p.2))

/-- Bot::is_admin (src/bot.rs lines 104-120): query the membership status and
report whether it is creator or administrator. -/
def is_admin (env : BotEnv) (chatId userId : Int) : Except String Bool :=
  match env.memberStatus chatId userId with
  | .error e => .error e
  | .ok st => .ok (st == ChatMemberStatus.creator || st == ChatMemberStatus.administrator)

/-- check_permission (src/lib.rs lines 44-61). -/
def check_permission (env : BotEnv) (g : Group) (m : Message) : Except String Bool :=
  if g.require_admin then
    match m.fromUser with
    | none => .error "Unable to retrieve user information"
    | some userId => is_admin env m.chatId userId
  else .ok true

def unwrapOrFalse : Except String Bool → Bool
  | .ok b => b
  | .error _ => false

def groupOnlyReply : Reply := .message "This command is only allowed in group chats"

def applyFailedText : String := "发生什么事了？未能成功更改群标题，请检查 bot 帐号权限"

/-- update_template (src/lib.rs lines 73-93): when the group is enabled, run
the apply cycle; on its failure flip enable off, persist and report the
failure; otherwise persist the (possibly apply-mutated) group and report the
new template. -/
def update_template (env : BotEnv) (store : Store) (g : Group) (d : Nat) :
    Except String HandlerOut :=
  if g.enable then
    let ar := Group.apply_template env g d
    if ¬(unwrapOrFalse ar.result) then
      let g2 := { ar.group with enable := false }
      .ok (.message applyFailedText, save_group store g2)
    else
      .ok (.message ("标题模板已被更改至： " ++ Group.join_title_template ar.group),
        save_group store ar.group)
  else
    .ok (.message ("标题模板已被更改至： " ++ Group.join_title_template g),
      save_group store g)

/-- The push handler (src/lib.rs lines 284-305).  The source unwraps m.text;
the dispatcher only invokes handlers for messages with text, so the missing
text case is modelled as the propagated error of that unwrap. -/
def push (env : BotEnv) (store : Store) (m : Message) (d : Nat) :
    Except String HandlerOut :=
  match get_group_title m.chatKind with
  | none => .ok (groupOnlyReply, store)
  | some _ =>
    match m.text with
    | none => .error "message text missing"
    | some t =>
      match splitOnce t ' ' with
      | none => .ok (.message "无效命令，没有发现新的标题片段", store)
      | some seg =>
        let ls := load_group_or_create store m.chatId m.chatKind
        match check_permission env ls.1 m with
        | .error e => .error e
        | .ok allowed =>
          if ¬allowed then .ok (.empty, ls.2)
          else update_template env ls.2 (Group.push_title_template ls.1 seg.2) d

/-- The push_front handler (src/lib.rs lines 307-328). -/
def push_front (env : BotEnv) (store : Store) (m : Message) (d : Nat) :
    Except String HandlerOut :=
  match get_group_title m.chatKind with
  | none => .ok (groupOnlyReply, store)
  | some _ =>
    match m.text with
    | none => .error "message text missing"
    | some t =>
      match splitOnce t ' ' with
      | none => .ok (.message "无效命令，没有发现新的标题片段", store)
      | some seg =>
        let ls := load_group_or_create store m.chatId m.chatKind
        match check_permission env ls.1 m with
        | .error e => .error e
        | .ok allowed =>
          if ¬allowed then .ok (.empty, ls.2)
          else update_template env ls.2 (Group.push_front_title_template ls.1 seg.2) d

/-- The pop handler (src/lib.rs lines 330-345). -/
def pop (env : BotEnv) (store : Store) (m : Message) (d : Nat) :
    Except String HandlerOut :=
  match get_group_title m.chatKind with
  | none => .ok (groupOnlyReply, store)
  | some _ =>
    let ls := load_group_or_create store m.chatId m.chatKind
    match check_permission env ls.1 m with
    | .error e => .error e
    | .ok allowed =>
      if ¬allowed then .ok (.empty, ls.2)
      else update_template env ls.2 (Group.pop_title_template ls.1) d

/-- The pop_front handler (src/lib.rs lines 347-362). -/
def pop_front (env : BotEnv) (store : Store) (m : Message) (d : Nat) :
    Except String HandlerOut :=
  match get_group_title m.chatKind with
  | none => .ok (groupOnlyReply, store)
  | some _ =>
    let ls := load_group_or_create store m.chatId m.chatKind
    match check_permission env ls.1 m with
    | .error e => .error e
    | .ok allowed =>
      if ¬allowed then .ok (.empty, ls.2)
      else update_template env ls.2 (Group.pop_front_title_template ls.1) d

/-- The set_template handler (src/lib.rs lines 197-218): clear the segment
list, push the command remainder as the single new segment, then run
update_template. -/
def set_template (env : BotEnv) (store : Store) (m : Message) (d : Nat) :
    Except String HandlerOut :=
  match get_group_title m.chatKind with
  | none => .ok (groupOnlyReply, store)
  | some _ =>
    match m.text with
    | none => .error "message text missing"
    | some t =>
      match splitOnce t ' ' with
      | none => .ok (.message "无效命令，没有发现新的标题模板", store)
      | some tt =>
        let ls := load_group_or_create store m.chatId m.chatKind
        match check_permission env ls.1 m with
        | .error e => .error e
        | .ok allowed =>
          if ¬allowed then .ok (.empty, ls.2)
          else
            update_template env ls.2
              (Group.push_title_template (Group.clear_title_template ls.1) tt.2) d

/-- The set_delimiter handler (src/lib.rs lines 220-242): note the extra
save_group before update_template, mirrored here. -/
def set_delimiter (env : BotEnv) (store : Store) (m : Message) (d : Nat) :
    Except String HandlerOut :=
  match get_group_title m.chatKind with
  | none => .ok (groupOnlyReply, store)
  | some _ =>
    match m.text with
    | none => .error "message text missing"
    | some t =>
      match splitOnce t ' ' with
      | none => .ok (.message "无效命令，没有发现新的分隔符", store)
      | some dl =>
        let ls := load_group_or_create store m.chatId m.chatKind
        match check_permission env ls.1 m with
        | .error e => .error e
        | .ok allowed =>
          if ¬allowed then .ok (.empty, ls.2)
          else
            let g1 := { ls.1 with delimiter := dl.2 }
            update_template env (save_group ls.2 g1) g1 d

/-- The set_timezone handler (src/lib.rs lines 244-282): the argument must
parse as a timezone before anything is loaded or written; the stored name is
the canonical display name of the parsed zone. -/
def set_timezone (env : BotEnv) (store : Store) (m : Message) (d : Nat) :
    Except String HandlerOut :=
  match get_group_title m.chatKind with
  | none => .ok (groupOnlyReply, store)
  | some _ =>
    match m.text with
    | none => .error "message text missing"
    | some t =>
      match splitOnce t ' ' with
      | none => .ok (.message "无效命令，没有发现新的时区名称", store)
      | some tzs =>
        match parseTz tzs.2 with
        | none => .ok (.message "无效命令，无法解析时区名称", store)
        | some tz =>
          let ls := load_group_or_create store m.chatId m.chatKind
          match check_permission env ls.1 m with
          | .error e => .error e
          | .ok allowed =>
            if ¬allowed then .ok (.empty, ls.2)
            else
              let g1 := { ls.1 with timezone := tz.name }
              if g1.enable then
                let ar := Group.apply_template env g1 d
                if ¬(unwrapOrFalse ar.result) then
                  let g2 := { ar.group with enable := false }
                  .ok (.message applyFailedText, save_group ls.2 g2)
                else
                  .ok (.message ("时区已变更至：" ++ ar.group.timezone),
                    save_group ls.2 ar.group)
              else
                .ok (.message ("时区已变更至：" ++ g1.timezone), save_group ls.2 g1)

/-- The enable handler (src/lib.rs lines 146-176): set enable, apply
immediately, revert and persist on failure. -/
def enable (env : BotEnv) (store : Store) (m : Message) (d : Nat) :
    Except String HandlerOut :=
  match get_group_title m.chatKind with
  | none => .ok (groupOnlyReply, store)
  | some _ =>
    let ls := load_group_or_create store m.chatId m.chatKind
    match check_permission env ls.1 m with
    | .error e => .error e
    | .ok allowed =>
      if ¬allowed then .ok (.empty, ls.2)
      else
        let g1 := { ls.1 with enable := true }
        let ar := Group.apply_template env g1 d
        if ¬(unwrapOrFalse ar.result) then
          let g2 := { ar.group with enable := false }
          .ok (.message applyFailedText, save_group ls.2 g2)
        else
          .ok (.message ("已启用自动标题更改，当前标题模板为： " ++
            Group.join_title_template ar.group), save_group ls.2 ar.group)

/-- The disable handler (src/lib.rs lines 178-195). -/
def disable (env : BotEnv) (store : Store) (m : Message) (_d : Nat) :
    Except String HandlerOut :=
  match get_group_title m.chatKind with
  | none => .ok (groupOnlyReply, store)
  | some _ =>
    let ls := load_group_or_create store m.chatId m.chatKind
    match check_permission env ls.1 m with
    | .error e => .error e
    | .ok allowed =>
      if ¬allowed then .ok (.empty, ls.2)
      else
        let g1 := { ls.1 with enable := false }
        .ok (.message "已禁用自动标题更改", save_group ls.2 g1)

/-! ## The reconciliation loop (handle_scheduled, src/lib.rs lines 364-396) -/

/-- Rust i64::from_str: optional sign, one or more digits, i64 range. -/
def digitVal (c : Char) : Option Nat :=
  if c.isDigit then some (c.toNat - 48) else none

def parseDigitsAux : List Char → Nat → Option Nat
  | [], acc => some acc
  | c :: rest, acc =>
    match digitVal c with
    | none => none
    | some v => parseDigitsAux rest (acc * 10 + v)

def parseI64 (s : String) : Option Int :=
  let core : Option Int :=
    match s.data with
    | [] => none
    | '+' :: rest =>
      if rest.isEmpty then none else (parseDigitsAux rest 0).map Int.ofNat
    | '-' :: rest =>
      if rest.isEmpty then none else (parseDigitsAux rest 0).map (fun n => -(n : Int))
    | l => (parseDigitsAux l 0).map Int.ofNat
  match core with
  | none => none
  | some v => if -(2 ^ 63) ≤ v ∧ v < 2 ^ 63 then some v else none

inductive LoopEvent
  | invalidId (name : String)
  | disabledGroup (id : Int)
  | applied (id : Int) (res : Except String Bool)
deriving DecidableEq, Repr

structure LoopOut where
  events : List LoopEvent
  store : Store
  panicked : Bool
deriving DecidableEq, Repr

/-- handle_scheduled (src/lib.rs lines 364-396).  For each listed group name:
an unparsable name is skipped with a log notice; a record that fails to load
hits the expect call, which panics and aborts the whole loop (panicked is
true and no later name is attempted); a disabled group is skipped; otherwise
apply_template runs and its result is discarded.  The source contains no
save_group call, so the store passes through unchanged. -/
def handle_scheduled (env : BotEnv) (store : Store) (dateMillis : Nat) :
    List String → LoopOut
  | [] => ⟨[], store, false⟩
  | name :: rest =>
    match parseI64 name with
    | none =>
      let o := handle_scheduled env store dateMillis rest
      ⟨.invalidId name :: o.events, o.store, o.panicked⟩
    | some id =>
      match storeGet store id with
      | none => ⟨[], store, true⟩
      | some g =>
        if ¬g.enable then
          let o := handle_scheduled env store dateMillis rest
          ⟨.disabledGroup id :: o.events, o.store, o.panicked⟩
        else
          let ar := Group.apply_template env g dateMillis
          let o := handle_scheduled env store dateMillis rest
          ⟨.applied id ar.result :: o.events, o.store, o.panicked⟩

/-! ## Helper lemmas -/

theorem stripKeyHead_app (s : String) : stripKeyHead ⟨"group-" ++ s⟩ = s := by
  simp [stripKeyHead, String.drop_eq, String.data_append]

/-! ## Operations for the segment invariant -/

inductive SegOp
  | pushOp (s : String)
  | pushFrontOp (s : String)
  | popOp
  | popFrontOp
deriving DecidableEq, Repr

def applySegOp (g : Group) : SegOp → Group
  | .pushOp s => Group.push_title_template g s
  | .pushFrontOp s => Group.push_front_title_template g s
  | .popOp => Group.pop_title_template g
  | .popFrontOp => Group.pop_front_title_template g

def applySegOps (g : Group) (ops : List SegOp) : Group := ops.foldl applySegOp g

theorem applySegOp_pos (g : Group) (op : SegOp) (h : 1 ≤ g.title_segment.length) :
    1 ≤ (applySegOp g op).title_segment.length := by
  cases op with
  | pushOp s => simp [applySegOp, Group.push_title_template]
  | pushFrontOp s => simp [applySegOp, Group.push_front_title_template]
  | popOp =>
    simp only [applySegOp, Group.pop_title_template]
    split
    · rename_i hgt
      simp only [List.length_dropLast]
      omega
    · exact h
  | popFrontOp =>
    simp only [applySegOp, Group.pop_front_title_template]
    split
    · rename_i hgt
      simp only [List.length_drop]
      omega
    · exact h

/-- C8: get_group_keys follows the pagination cursor until the backend
reports completion; over a two-page backend (complete false then true) it
returns exactly the in-order concatenation of both pages of keys, each with
the fixed group- namespace stripped, hence with no duplicates beyond those of
the backend and with no truncation. -/
theorem c8_pagination_two_pages (ids1 ids2 : List String) (c : String)
    (cur2 : Option String) :
    get_group_keys
      ⟨ids1.map (fun s => ⟨"group-" ++ s⟩), some c, false⟩
      [⟨ids2.map (fun s => ⟨"group-" ++ s⟩), cur2, true⟩] =
      .ok (ids1 ++ ids2) := by
  have hmap : ∀ l : List String,
      l.map (stripKeyHead ∘ fun s => KvKey.mk ("group-" ++ s)) = l := by
    intro l
    induction l with
    | nil => rfl
    | cons x xs ih => simp [Function.comp, stripKeyHead_app, ih]
  simp [get_group_keys, collectKeys, hmap]

def c9Group : Group :=
  { enable := false, id := 0, title_segment := ["Team Chat"], delimiter := "|",
    last_title := "Team Chat", timezone := "UTC", require_admin := true }

/-- C9: rendering the single segment Team Chat with delimiter | at the
instant 2024-03-05T10:00:00Z (epoch second 1709632800) in timezone UTC gives
exactly Team Chat, and after pushing the date-template segment the render at
the same instant is Team Chat | 2024-03-05. -/
theorem c9_render_example :
    Group.get_new_title c9Group
        (TemplateContext.generate (Group.get_time c9Group 1709632800)) =
      .ok "Team Chat" ∧
    Group.get_new_title (Group.push_title_template c9Group "{Y}-{m}-{d}")
        (TemplateContext.generate
          (Group.get_time (Group.push_title_template c9Group "{Y}-{m}-{d}") 1709632800)) =
      .ok "Team Chat | 2024-03-05" := by
  constructor
  · decide
  · decide

def c1Group : Group :=
  { enable := true, id := 7, title_segment := ["T"], delimiter := "|",
    last_title := "old", timezone := "UTC", require_admin := true }

def c1Env : BotEnv :=
  { memberStatus := fun _ _ => .ok .member,
    setTitle := fun _ _ => .ok (some
      { ok := false, description := none, error_code := some 400, result := none }) }

/-- C1: the apply cycle does NOT report failure on a non-success setChatTitle
response.  With the external call answering ok false (error code 400), the
source discards the boolean returned by update_title, still overwrites
last_title with the rendered string and reports success: the claim (and the
intent visible in SET_CHAT_TITLE_FAILED) is violated by the code. -/
theorem c1_nonsuccess_response_swallowed :
    Group.apply_template c1Env c1Group 1709632800000 =
      ⟨{ c1Group with last_title := "T" }, [(7, "T")], .ok true⟩ ∧
    (Group.apply_template c1Env c1Group 1709632800000).group.last_title ≠
      c1Group.last_title := by
  constructor
  · decide
  · decide

/-- C4: every sequence of push, push_front, pop and pop_front operations
started from a record with at least one segment keeps at least one segment,
and pop as well as pop_front on a record with exactly one segment leave the
record unchanged. -/
theorem c4_segment_invariant (g g2 : Group) (ops : List SegOp)
    (h : 1 ≤ g.title_segment.length) (h2 : g2.title_segment.length = 1) :
    1 ≤ (applySegOps g ops).title_segment.length ∧
    Group.pop_title_template g2 = g2 ∧ Group.pop_front_title_template g2 = g2 := by
  refine ⟨?_, ?_, ?_⟩
  · induction ops generalizing g with
    | nil => exact h
    | cons op rest ih => exact ih (applySegOp g op) (applySegOp_pos g op h)
  · simp [Group.pop_title_template, h2]
  · simp [Group.pop_front_title_template, h2]

def c4Witness : Group :=
  { enable := false, id := 1, title_segment := ["a"], delimiter := "|",
    last_title := "a", timezone := "UTC", require_admin := true }

theorem c4_segment_invariant_witness :
    1 ≤ (applySegOps c4Witness
      [.popOp, .pushOp "b", .popFrontOp, .popOp]).title_segment.length ∧
    Group.pop_title_template c4Witness = c4Witness ∧
    Group.pop_front_title_template c4Witness = c4Witness :=
  c4_segment_invariant c4Witness c4Witness _ (by decide) (by decide)

/-- C5: when the rendered title has byte length 0 or above 255 the apply
cycle fails with the invalid-length error, makes no external call and leaves
the record unchanged, exactly as it does for a render error. -/
theorem c5_length_gate (env : BotEnv) (g gE : Group) (d : Nat) (t eMsg : String)
    (ht : Group.renderAt g d = .ok t)
    (hlen : t.utf8ByteSize = 0 ∨ 255 < t.utf8ByteSize)
    (he : Group.renderAt gE d = .error eMsg) :
    Group.apply_template env g d = ⟨g, [], .error "Invalid title length"⟩ ∧
    Group.apply_template env gE d = ⟨gE, [], .error eMsg⟩ := by
  constructor
  · unfold Group.apply_template
    rw [ht]
    have hno : ¬(1 ≤ t.utf8ByteSize ∧ t.utf8ByteSize ≤ 255) := by omega
    simp [hno]
  · unfold Group.apply_template
    rw [he]

def c5EnvW : BotEnv :=
  { memberStatus := fun _ _ => .ok .member,
    setTitle := fun _ _ => .error "transport" }

def c5GroupA : Group :=
  { enable := true, id := 2, title_segment := [""], delimiter := "|",
    last_title := "", timezone := "UTC", require_admin := true }

def c5GroupB : Group := { c5GroupA with title_segment := ["{qq}"] }

theorem c5_length_gate_witness :
    Group.apply_template c5EnvW c5GroupA 0 =
      ⟨c5GroupA, [], .error "Invalid title length"⟩ ∧
    Group.apply_template c5EnvW c5GroupB 0 =
      ⟨c5GroupB, [], .error "unresolved template placeholder: qq"⟩ :=
  c5_length_gate c5EnvW c5GroupA c5GroupB 0 ""
    "unresolved template placeholder: qq" (by decide) (by decide) (by decide)

/-- C7: a set_timezone argument that does not parse as a timezone is rejected
with a user-visible error before anything is loaded or written, while a
record whose persisted timezone string is unparsable renders with the UTC
fallback instead of erroring. -/
theorem c7_timezone_validation (env : BotEnv) (store : Store) (m : Message)
    (d : Nat) (ttl t pre tzArg : String) (g : Group) (naive : Int)
    (hkind : get_group_title m.chatKind = some ttl)
    (htext : m.text = some t)
    (hsplit : splitOnce t ' ' = some (pre, tzArg))
    (hbad : parseTz tzArg = none)
    (hgbad : parseTz g.timezone = none) :
    set_timezone env store m d = .ok (.message "无效命令，无法解析时区名称", store) ∧
    Group.get_time g naive = ⟨naive, tzUTC⟩ := by
  constructor
  · simp [set_timezone, hkind, htext, hsplit, hbad]
  · simp [Group.get_time, hgbad]

def c7Msg : Message :=
  { chatId := 3, chatKind := .supergroup "Chat", text := some "/set_timezone Mars/Olympus",
    fromUser := some 11 }

def c7Group : Group :=
  { enable := true, id := 3, title_segment := ["x"], delimiter := "|",
    last_title := "x", timezone := "Nope/Nowhere", require_admin := true }

theorem c7_timezone_validation_witness :
    set_timezone c5EnvW [] c7Msg 0 =
      .ok (.message "无效命令，无法解析时区名称", []) ∧
    Group.get_time c7Group 1709632800 = ⟨1709632800, tzUTC⟩ :=
  c7_timezone_validation c5EnvW [] c7Msg 0 "Chat" "/set_timezone Mars/Olympus"
    "/set_timezone" "Mars/Olympus" c7Group 1709632800
    (by decide) (by decide) (by decide) (by decide) (by decide)

/-- C6: with require_admin true and a requesting user whose membership status
is member, every mutating handler that reaches the permission gate performs
no mutation and no persistence write (the stored record is unchanged) and
returns the empty reply. -/
theorem c6_permission_gate (env : BotEnv) (store : Store) (m : Message) (d : Nat)
    (g : Group) (uid : Int) (ttl t pre rest : String) (tz : Tz)
    (hkind : get_group_title m.chatKind = some ttl)
    (hget : storeGet store m.chatId = some g)
    (hadmin : g.require_admin = true)
    (hfrom : m.fromUser = some uid)
    (hst : env.memberStatus m.chatId uid = .ok .member)
    (htext : m.text = some t)
    (hsplit : splitOnce t ' ' = some (pre, rest))
    (htz : parseTz rest = some tz) :
    push env store m d = .ok (.empty, store) ∧
    push_front env store m d = .ok (.empty, store) ∧
    pop env store m d = .ok (.empty, store) ∧
    pop_front env store m d = .ok (.empty, store) ∧
    set_template env store m d = .ok (.empty, store) ∧
    set_delimiter env store m d = .ok (.empty, store) ∧
    set_timezone env store m d = .ok (.empty, store) ∧
    enable env store m d = .ok (.empty, store) ∧
    disable env store m d = .ok (.empty, store) := by
  have hload : load_group_or_create store m.chatId m.chatKind = (g, store) := by
    simp [load_group_or_create, hget]
  have hperm : check_permission env g m = .ok false := by
    simp [check_permission, hadmin, hfrom, is_admin, hst]
    exact ⟨rfl, rfl⟩
  refine ⟨?_, ?_, ?_, ?_, ?_, ?_, ?_, ?_, ?_⟩ <;>
    simp [push, push_front, pop, pop_front, set_template, set_delimiter,
      set_timezone, enable, disable, hkind, htext, hsplit, htz, hload, hperm]

def c6Env : BotEnv :=
  { memberStatus := fun _ _ => .ok .member,
    setTitle := fun _ _ => .ok (some
      { ok := true, description := none, error_code := none, result := some true }) }

def c6Group : Group :=
  { enable := true, id := 4, title_segment := ["seg"], delimiter := "|",
    last_title := "seg", timezone := "UTC", require_admin := true }

def c6Store : Store := [(4, c6Group)]

def c6Msg : Message :=
  { chatId := 4, chatKind := .groupChat "Chat", text := some "/push UTC",
    fromUser := some 12 }

theorem c6_permission_gate_witness :
    push c6Env c6Store c6Msg 0 = .ok (.empty, c6Store) ∧
    push_front c6Env c6Store c6Msg 0 = .ok (.empty, c6Store) ∧
    pop c6Env c6Store c6Msg 0 = .ok (.empty, c6Store) ∧
    pop_front c6Env c6Store c6Msg 0 = .ok (.empty, c6Store) ∧
    set_template c6Env c6Store c6Msg 0 = .ok (.empty, c6Store) ∧
    set_delimiter c6Env c6Store c6Msg 0 = .ok (.empty, c6Store) ∧
    set_timezone c6Env c6Store c6Msg 0 = .ok (.empty, c6Store) ∧
    enable c6Env c6Store c6Msg 0 = .ok (.empty, c6Store) ∧
    disable c6Env c6Store c6Msg 0 = .ok (.empty, c6Store) :=
  c6_permission_gate c6Env c6Store c6Msg 0 c6Group 12 "Chat" "/push UTC"
    "/push" "UTC" tzUTC (by decide) (by decide) (by decide) (by decide)
    (by decide) (by decide) (by decide) (by decide)

/-! ## More helper lemmas -/

theorem apply_template_group_eq (env : BotEnv) (g : Group) (d : Nat) :
    ∃ lt, (Group.apply_template env g d).group = { g with last_title := lt } := by
  unfold Group.apply_template
  cases Group.renderAt g d with
  | error e => exact ⟨g.last_title, rfl⟩
  | ok t =>
    dsimp only
    split
    · exact ⟨g.last_title, rfl⟩
    · cases Group.update_title env g t with
      | error e => exact ⟨g.last_title, rfl⟩
      | ok b => exact ⟨t, rfl⟩

theorem lookup_storePut_self (st : Store) (id : Int) (g : Group) :
    storeGet (storePut st id g) id = some g := by
  induction st with
  | nil => simp [storePut, storeGet, List.lookup]
  | cons p rest ih =>
    obtain ⟨k, v⟩ := p
    by_cases h : k = id
    · subst h
      simp [storePut, storeGet, List.lookup]
    · have h3 : (id == k) = false := beq_eq_false_iff_ne.mpr (fun hh => h hh.symm)
      have h4 : (k == id) = false := beq_eq_false_iff_ne.mpr h
      simp only [storePut, h4, Bool.false_eq_true, if_false]
      simp only [storeGet, List.lookup, h3] at ih ⊢
      exact ih

/-- Observation of a handler result: the segment list of the record stored
under the given chat id, when the handler succeeded. -/
def storedSegments (res : Except String HandlerOut) (id : Int) : Option (List String) :=
  match res with
  | .ok (_, st) => (storeGet st id).map Group.title_segment
  | .error _ => none

theorem update_template_stored_segments (env : BotEnv) (store : Store)
    (g : Group) (d : Nat) :
    storedSegments (update_template env store g d) g.id = some g.title_segment := by
  obtain ⟨lt, hgr⟩ := apply_template_group_eq env g d
  unfold update_template
  by_cases hg : g.enable
  · simp only [hg, if_true]
    split
    · rw [hgr]
      simp [storedSegments, save_group, lookup_storePut_self]
    · rw [hgr]
      simp [storedSegments, save_group, lookup_storePut_self]
  · simp [hg, storedSegments, save_group, lookup_storePut_self]

/-- C10: with a permitted caller and a command carrying a non-empty remainder,
set_template replaces the whole segment list by the single remainder segment
(clearing first, so the in-memory list is transiently empty), and the record
persisted afterwards has exactly that one segment no matter how many it had
before. -/
theorem c10_set_template_single_segment (env : BotEnv) (store : Store)
    (m : Message) (d : Nat) (g : Group) (ttl t pre rest : String)
    (hkind : get_group_title m.chatKind = some ttl)
    (htext : m.text = some t)
    (hsplit : splitOnce t ' ' = some (pre, rest))
    (_hrest : rest ≠ "")
    (hget : storeGet store m.chatId = some g)
    (hid : g.id = m.chatId)
    (hperm : check_permission env g m = .ok true) :
    storedSegments (set_template env store m d) m.chatId = some [rest] ∧
    (Group.clear_title_template g).title_segment = [] := by
  constructor
  · have hload : load_group_or_create store m.chatId m.chatKind = (g, store) := by
      simp [load_group_or_create, hget]
    have hseg := update_template_stored_segments env store
      (Group.push_title_template (Group.clear_title_template g) rest) d
    simp only [set_template, hkind, htext, hsplit, hload, hperm]
    simpa [Group.push_title_template, Group.clear_title_template, hid] using hseg
  · rfl

def c10Env : BotEnv :=
  { memberStatus := fun _ _ => .ok .administrator,
    setTitle := fun _ _ => .ok (some
      { ok := true, description := none, error_code := none, result := some true }) }

def c10Group : Group :=
  { enable := false, id := 6, title_segment := ["a", "b", "c"], delimiter := "|",
    last_title := "a", timezone := "UTC", require_admin := true }

def c10Store : Store := [(6, c10Group)]

def c10Msg : Message :=
  { chatId := 6, chatKind := .groupChat "Chat", text := some "/set_template Hello",
    fromUser := some 13 }

theorem c10_set_template_single_segment_witness :
    storedSegments (set_template c10Env c10Store c10Msg 0) 6 = some ["Hello"] ∧
    (Group.clear_title_template c10Group).title_segment = [] :=
  c10_set_template_single_segment c10Env c10Store c10Msg 0 c10Group "Chat"
    "/set_template Hello" "/set_template" "Hello" (by decide) (by decide)
    (by decide) (by decide) (by decide) (by decide) (by decide)

/-! ## Claims about the reconciliation loop -/

def c2Env : BotEnv :=
  { memberStatus := fun _ _ => .ok .member,
    setTitle := fun _ _ => .ok (some
      { ok := true, description := none, error_code := none, result := some true }) }

def c2Group : Group :=
  { enable := true, id := 2, title_segment := ["ok"], delimiter := "|",
    last_title := "ok", timezone := "UTC", require_admin := true }

def c2Store : Store := [(2, c2Group)]

/-- C2 counterexample: with stored names 1 and 2 where the record of group 1
fails to load (absent), the loop hits the expect call and panics: it aborts
with no event at all, so the perfectly well-formed, enabled group 2 (whose
apply would succeed) is never attempted.  A record load failure therefore
aborts the loop, contrary to the claim. -/
theorem c2_load_failure_aborts_loop :
    handle_scheduled c2Env c2Store 0 ["1", "2"] = ⟨[], c2Store, true⟩ ∧
    storeGet c2Store 2 = some c2Group ∧
    c2Group.enable = true ∧
    (Group.apply_template c2Env c2Group 0).result = .ok true := by
  refine ⟨by decide, by decide, by decide, by decide⟩

/-- C2 amended: as long as every parsable listed name has a loadable record,
the loop never aborts: unparsable names are skipped and every group is
attempted (one event per name), regardless of any render or apply failure;
only a record load failure panics and aborts the loop. -/
theorem c2_isolation_amended (env : BotEnv) (store : Store) (d : Nat)
    (names : List String)
    (h : ∀ n ∈ names,
      Option.all (fun id => (storeGet store id).isSome) (parseI64 n) = true) :
    (handle_scheduled env store d names).panicked = false ∧
    (handle_scheduled env store d names).events.length = names.length := by
  induction names with
  | nil => exact ⟨rfl, rfl⟩
  | cons n rest ih =>
    have hn := h n (List.mem_cons_self n rest)
    have ihr := ih (fun x hx => h x (List.mem_cons_of_mem n hx))
    cases hp : parseI64 n with
    | none => simp [handle_scheduled, hp, ihr.1, ihr.2]
    | some id =>
      rw [hp] at hn
      simp only [Option.all] at hn
      cases hs : storeGet store id with
      | none => rw [hs] at hn; simp at hn
      | some g =>
        by_cases hg : g.enable
        · simp [handle_scheduled, hp, hs, hg, ihr.1, ihr.2]
        · simp [handle_scheduled, hp, hs, hg, ihr.1, ihr.2]

theorem c2_isolation_amended_witness :
    (handle_scheduled c2Env c2Store 0 ["2", "bad"]).panicked = false ∧
    (handle_scheduled c2Env c2Store 0 ["2", "bad"]).events.length =
      (["2", "bad"] : List String).length :=
  c2_isolation_amended c2Env c2Store 0 ["2", "bad"] (by decide)

def c3Group : Group :=
  { enable := true, id := 5, title_segment := ["X"], delimiter := "|",
    last_title := "old", timezone := "UTC", require_admin := true }

def c3Store : Store := [(5, c3Group)]

/-- C3 counterexample: for the enabled group 5 the apply cycle succeeds and
updates the in-memory last_title to X, yet after the loop the store still
holds the record with last_title old: the loop contains no save_group call,
so the updated record is not persisted, contrary to the claim. -/
theorem c3_success_not_persisted :
    (Group.apply_template c2Env c3Group 0).result = .ok true ∧
    (Group.apply_template c2Env c3Group 0).group.last_title = "X" ∧
    handle_scheduled c2Env c3Store 0 ["5"] =
      ⟨[.applied 5 (.ok true)], c3Store, false⟩ ∧
    storeGet c3Store 5 = some c3Group ∧
    c3Group.last_title = "old" := by
  refine ⟨by decide, by decide, by decide, by decide, by decide⟩

/-- C3 amended: the reconciliation loop performs no persistence write at all;
whatever the apply outcomes, the store after the loop equals the store before
it, and the updated last_title exists only in the discarded in-memory
record. -/
theorem c3_loop_store_unchanged (env : BotEnv) (store : Store) (d : Nat)
    (names : List String) :
    (handle_scheduled env store d names).store = store := by
  induction names with
  | nil => rfl
  | cons n rest ih =>
    cases hp : parseI64 n with
    | none => simp [handle_scheduled, hp, ih]
    | some id =>
      cases hs : storeGet store id with
      | none => simp [handle_scheduled, hp, hs]
      | some g =>
        by_cases hg : g.enable
        · simp [handle_scheduled, hp, hs, hg, ih]
        · simp [handle_scheduled, hp, hs, hg, ih]

end TitleBot

